import Mathlib

/-!
Shallow embedding of the client-side state layer of an inventory-management
dashboard (Angular services and components), together with proofs about its
load, filter, pagination, session and validation logic.

Modelling conventions:
* Angular signals become fields of explicit state structures; a method that
  mutates signals becomes a function from the old state (plus the inputs the
  method reads) to the new state.
* An HTTP call's outcome is passed in as an `Except ApiError result` value;
  the `subscribe` success / failure callbacks become the two match arms.
  Returning a `reject` action models an early `return` taken before the
  remote call is issued.
* `localStorage` keys become `Option`-valued fields of the state
  (`none` models an absent key).
* JavaScript timestamps (`new Date(x).getTime()`) are modelled as `Int`
  milliseconds in UTC; a date-only string such as "2024-01-15" is modelled
  by the millisecond timestamp of that day's midnight, so the source's
  `end.setHours(23, 59, 59, 999)` adds `86399999` ms to it.
* JavaScript string truthiness (`if (s)`) is modelled as `s ≠ ""`, and
  `a || b` on strings as `if a = "" then b else a`.
* Monetary values (`unitPrice`, `totalAmount`) are opaque to every claim
  proved here and are modelled as `Int`.
-/

namespace Infosys

/-- JS `a.includes(b)` on strings: `b` occurs as a contiguous substring
of `a` (decided on the underlying character lists). -/
def includesStr (s sub : String) : Bool :=
  decide (sub.data <:+: s.data)

/-- JS `s.toLowerCase()`, modelled on the character list. -/
def toLowerStr (s : String) : String :=
  String.mk (s.data.map Char.toLower)

/-- JS `s.trim()`: strip leading and trailing whitespace, modelled on the
character list. -/
def trimStr (s : String) : String :=
  String.mk (((s.data.dropWhile Char.isWhitespace).reverse.dropWhile
    Char.isWhitespace).reverse)

/-- JS `s.slice(0, n)`: the first `n` characters. -/
def sliceStr (s : String) (n : Nat) : String :=
  String.mk (s.data.take n)

/-- JS `v || fallback` where `v` models the optional server message
`error.error?.message` (absent object or absent field collapse to `none`):
an absent or empty string is falsy, so the fallback is used. -/
def jsOrElse (v : Option String) (fallback : String) : String :=
  match v with
  | some s => if s = "" then fallback else s
  | none => fallback

/-- JS `s.replace(/\s+/g, '')`: remove every whitespace character. -/
def stripWhitespace (s : String) : String :=
  String.mk (s.data.filter (fun c => !c.isWhitespace))

/-- `Product` interface from `api.service.ts`. -/
structure Product where
  id : String
  sku : String
  name : String
  category : String
  supplier : String
  unitPrice : Int
  stockLevel : Int
  minStockThreshold : Int
  createdAt : String
  updatedAt : String
deriving Repr, DecidableEq

/-- `Transaction` interface from `api.service.ts`; `date` is the parsed
`new Date(t.date).getTime()` timestamp in ms, and `type` holds
"purchase" or "sale". -/
structure Transaction where
  id : String
  productId : String
  productName : String
  productSku : String
  type : String
  quantity : Int
  unitPrice : Int
  totalAmount : Int
  userId : String
  userName : String
  date : Int
  notes : Option String
deriving Repr, DecidableEq

/-- `User` interface from `auth.service.ts`; `role` holds "admin" or
"user". -/
structure User where
  id : String
  email : String
  password : String
  role : String
  name : String
deriving Repr, DecidableEq

/-- The redacted record written to the `currentUser` localStorage key:
the `User` fields minus `password` (the source destructures the password
away before `JSON.stringify`). -/
structure StoredUser where
  id : String
  email : String
  role : String
  name : String
deriving Repr, DecidableEq

/-- Drop the password field, as `const \x7b password: _, ...rest \x7d = user`
does before writing to localStorage. -/
def redactUser (u : User) : StoredUser :=
  { id := u.id, email := u.email, role := u.role, name := u.name }

/-- A failed HTTP response, reduced to the one field the error handlers
read: `error.error?.message`. -/
structure ApiError where
  message : Option String
deriving Repr, DecidableEq

/-- Low-stock predicate used by `ProductService.getLowStockProducts`,
`ProductService.loadLowStockProducts`'s failure fallback and
`ProductsComponent.isLowStock`: `p.stockLevel <= p.minStockThreshold`. -/
def isLowStock (p : Product) : Bool :=
  decide (p.stockLevel ≤ p.minStockThreshold)

namespace ProductService

/-- The three signals of `ProductService`. -/
structure State where
  products : List Product
  isLoading : Bool
  error : Option String
deriving Repr, DecidableEq

/-- `ProductService.loadProducts`, from `isLoading.set(true)` /
`error.set(null)` through the subscribe callback: on success the snapshot
is replaced and loading/error cleared; on failure the error signal gets
`error.error?.message || 'Failed to load products'`, loading is cleared
and the snapshot is set to `[]`. -/
def loadProducts (st : State) (result : Except ApiError (List Product)) : State :=
  match result with
  | .ok products =>
      { st with products := products, isLoading := false, error := none }
  | .error e =>
      { st with
          error := some (jsOrElse e.message "Failed to load products"),
          isLoading := false,
          products := [] }

/-- `ProductService.loadLowStockProducts`: on success the snapshot is
replaced by the server's low-stock list; on failure the error signal gets
`error.error?.message || 'Failed to load low stock products'`, loading is
cleared, and the snapshot falls back to local filtering:
`this.products().filter(p => p.stockLevel <= p.minStockThreshold)`. -/
def loadLowStockProducts (st : State) (result : Except ApiError (List Product)) : State :=
  match result with
  | .ok products =>
      { st with products := products, isLoading := false, error := none }
  | .error e =>
      { st with
          error := some (jsOrElse e.message "Failed to load low stock products"),
          isLoading := false,
          products := st.products.filter isLowStock }

/-- `ProductService.searchProducts`: case-insensitive substring match of
the term against name, sku, category and supplier. -/
def searchProducts (products : List Product) (term : String) : List Product :=
  let searchTerm := toLowerStr term
  products.filter (fun p =>
    includesStr (toLowerStr p.name) searchTerm ||
    includesStr (toLowerStr p.sku) searchTerm ||
    includesStr (toLowerStr p.category) searchTerm ||
    includesStr (toLowerStr p.supplier) searchTerm)

end ProductService

namespace TransactionService

/-- The three signals of `TransactionService`. -/
structure State where
  transactions : List Transaction
  isLoading : Bool
  error : Option String
deriving Repr, DecidableEq

/-- `TransactionService.loadTransactions`, from the initial signal writes
through the subscribe callback: on success the snapshot is replaced and
loading/error cleared; on failure the error signal gets
`error.error?.message || 'Failed to load transactions'`, loading is
cleared and the snapshot is set to `[]`. -/
def loadTransactions (st : State) (result : Except ApiError (List Transaction)) : State :=
  match result with
  | .ok transactions =>
      { st with transactions := transactions, isLoading := false, error := none }
  | .error e =>
      { st with
          error := some (jsOrElse e.message "Failed to load transactions"),
          isLoading := false,
          transactions := [] }

/-- `TransactionService.getTransactionsByDateRange`: keep transactions with
`start <= t.date <= end` where `end` is the end date with its time set to
23:59:59.999 (`endDate` here is the parsed day-midnight timestamp). -/
def getTransactionsByDateRange (transactions : List Transaction)
    (startDate endDate : Int) : List Transaction :=
  transactions.filter (fun t =>
    decide (startDate ≤ t.date) && decide (t.date ≤ endDate + 86399999))

end TransactionService

/-- If the fallback string is non-empty, `jsOrElse` never returns the
empty string. -/
theorem jsOrElse_ne_empty (v : Option String) (fallback : String)
    (hfb : fallback ≠ "") : jsOrElse v fallback ≠ "" := by
  unfold jsOrElse
  cases v with
  | none => exact hfb
  | some s =>
      by_cases hs : s = "" <;> simp [hs, hfb]

/-- Concrete product used in the C1 counterexample; it is low-stock
(`stockLevel = 1 ≤ 5 = minStockThreshold`). -/
def c1StaleProduct : Product :=
  { id := "p1", sku := "SKU-1", name := "Bolt", category := "Tools",
    supplier := "Acme", unitPrice := 2, stockLevel := 1,
    minStockThreshold := 5, createdAt := "", updatedAt := "" }

/-- C1, counterexample: `loadLowStockProducts` is a load operation on the
products RemoteStore, yet after a failed remote call (with a stale
snapshot holding one low-stock product) the snapshot is the stale product
list, not the empty list — the claim "the store's collection snapshot is
set to the empty list" is false for this load operation. -/
theorem c1_counterexample_low_stock_load_keeps_stale :
    (ProductService.loadLowStockProducts
       { products := [c1StaleProduct], isLoading := true, error := none }
       (Except.error { message := none })).products = [c1StaleProduct] ∧
    ([c1StaleProduct] : List Product) ≠ [] := by
  exact ⟨rfl, by simp⟩

/-- C1 (amended): for `loadProducts` and `loadTransactions`, a failed
remote call empties the snapshot, clears loading and sets a non-empty
error message (server-supplied when present and non-empty, otherwise the
generic fallback); for `loadLowStockProducts`, a failed remote call
clears loading and sets a non-empty error message, but replaces the
snapshot with the low-stock subset of the stale prior snapshot instead of
emptying it. -/
theorem c1_amended_load_failure_semantics
    (pst : ProductService.State) (tst : TransactionService.State) (e : ApiError) :
    ((ProductService.loadProducts pst (Except.error e)).products = [] ∧
     (ProductService.loadProducts pst (Except.error e)).isLoading = false ∧
     (ProductService.loadProducts pst (Except.error e)).error
        = some (jsOrElse e.message "Failed to load products") ∧
     jsOrElse e.message "Failed to load products" ≠ "") ∧
    ((TransactionService.loadTransactions tst (Except.error e)).transactions = [] ∧
     (TransactionService.loadTransactions tst (Except.error e)).isLoading = false ∧
     (TransactionService.loadTransactions tst (Except.error e)).error
        = some (jsOrElse e.message "Failed to load transactions") ∧
     jsOrElse e.message "Failed to load transactions" ≠ "") ∧
    ((ProductService.loadLowStockProducts pst (Except.error e)).products
        = pst.products.filter isLowStock ∧
     (ProductService.loadLowStockProducts pst (Except.error e)).isLoading = false ∧
     (ProductService.loadLowStockProducts pst (Except.error e)).error
        = some (jsOrElse e.message "Failed to load low stock products") ∧
     jsOrElse e.message "Failed to load low stock products" ≠ "") := by
  refine ⟨⟨rfl, rfl, rfl, ?_⟩, ⟨rfl, rfl, rfl, ?_⟩, ⟨rfl, rfl, rfl, ?_⟩⟩ <;>
    exact jsOrElse_ne_empty _ _ (by simp)

/-- `Math.ceil(filteredLen / pageSize)` guarded by
`pages > 0 ? pages : 1`, shared body of the `totalPages` computed signal
of `ProductsComponent` (pageSize 12) and `TransactionsComponent`
(pageSize 10). -/
def totalPagesCalc (filteredLen pageSize : Nat) : Nat :=
  let pages := (filteredLen + pageSize - 1) / pageSize
  if pages > 0 then pages else 1

/-- `getPageNumbers`, identical in `ProductsComponent` and
`TransactionsComponent`, applied to `total := this.totalPages()` and
`current := this.currentPage()`: all pages when `total <= 7`, the first
five when `current <= 3`, the last five when `current >= total - 2`, and
otherwise the 3-wide window centred on `current`. -/
def getPageNumbers (total current : Nat) : List Nat :=
  if total ≤ 7 then
    (List.range total).map (· + 1)
  else if current ≤ 3 then
    [1, 2, 3, 4, 5]
  else if current ≥ total - 2 then
    [total - 4, total - 3, total - 2, total - 1, total]
  else
    [current - 1, current, current + 1]

namespace TransactionsComponent

/-- The signals of `TransactionsComponent` that the filter/pagination
logic reads and writes.  `startDate`/`endDate` model the two date-string
signals: `none` is the empty string (falsy), `some d` is a date string
parsing to day-midnight timestamp `d`. -/
structure State where
  transactions : List Transaction
  filteredTransactions : List Transaction
  searchTerm : String
  filterType : String
  startDate : Option Int
  endDate : Option Int
  currentPage : Int
deriving Repr, DecidableEq

/-- `TransactionsComponent.applyFilters`: type filter, then inclusive
date-range filter with the end date's time forced to 23:59:59.999, then
case-insensitive search over productName / productSku / userName, then
`currentPage.set(1)`. -/
def applyFilters (st : State) : State :=
  let filtered := st.transactions
  let filtered :=
    if st.filterType ≠ "all" then
      filtered.filter (fun t => t.type == st.filterType)
    else filtered
  let filtered :=
    match st.startDate, st.endDate with
    | some s, some e =>
        filtered.filter (fun t =>
          decide (s ≤ t.date) && decide (t.date ≤ e + 86399999))
    | _, _ => filtered
  let term := toLowerStr st.searchTerm
  let filtered :=
    if term ≠ "" then
      filtered.filter (fun t =>
        includesStr (toLowerStr t.productName) term ||
        includesStr (toLowerStr t.productSku) term ||
        includesStr (toLowerStr t.userName) term)
    else filtered
  { st with filteredTransactions := filtered, currentPage := 1 }

/-- The `totalPages` computed signal of `TransactionsComponent`
(`pageSize = 10`). -/
def totalPages (st : State) : Nat :=
  totalPagesCalc st.filteredTransactions.length 10

/-- `TransactionsComponent.goToPage`: update `currentPage` only when
`page >= 1 && page <= this.totalPages()`. -/
def goToPage (st : State) (page : Int) : State :=
  if 1 ≤ page ∧ page ≤ (totalPages st : Int) then
    { st with currentPage := page }
  else st

end TransactionsComponent

namespace ProductsComponent

/-- The signals of `ProductsComponent` that the filter/pagination logic
reads and writes. -/
structure State where
  products : List Product
  filteredProducts : List Product
  searchTerm : String
  currentPage : Int
deriving Repr, DecidableEq

/-- `ProductsComponent.applyFilters`: copy the snapshot when the term is
empty (falsy), otherwise delegate to `ProductService.searchProducts`;
then `currentPage.set(1)`. -/
def applyFilters (st : State) : State :=
  let term := st.searchTerm
  let filtered :=
    if term = "" then st.products
    else ProductService.searchProducts st.products term
  { st with filteredProducts := filtered, currentPage := 1 }

/-- The `totalPages` computed signal of `ProductsComponent`
(`pageSize = 12`). -/
def totalPages (st : State) : Nat :=
  totalPagesCalc st.filteredProducts.length 12

/-- `ProductsComponent.goToPage`: update `currentPage` only when
`page >= 1 && page <= this.totalPages()`. -/
def goToPage (st : State) (page : Int) : State :=
  if 1 ≤ page ∧ page ≤ (totalPages st : Int) then
    { st with currentPage := page }
  else st

end ProductsComponent

/-- `WelcomeComponent.filteredTransactions`: the dashboard's search over
the recent-transaction slice matches the trimmed lower-cased term against
productName, productSku, userName and type. -/
def WelcomeComponent.filteredTransactions
    (recentTransactions : List Transaction) (searchTerm : String) :
    List Transaction :=
  let term := toLowerStr (trimStr searchTerm)
  if term = "" then recentTransactions
  else
    recentTransactions.filter (fun t =>
      includesStr (toLowerStr t.productName) term ||
      includesStr (toLowerStr t.productSku) term ||
      includesStr (toLowerStr t.userName) term ||
      includesStr (toLowerStr t.type) term)

/-- C2: the page-number window of the list views: all pages `[1..total]`
when `total ≤ 7`; `[1,2,3,4,5]` when `total > 7` and `current ≤ 3`;
the last five pages when `total > 7` and `current ≥ total-2`; and the
3-wide window `[current-1, current, current+1]` otherwise; together with
the three concrete examples from the spec. -/
theorem c2_page_number_window (total current : Nat)
    (h1 : 1 ≤ current) (h2 : current ≤ total) :
    (total ≤ 7 → getPageNumbers total current = (List.range total).map (· + 1)) ∧
    (7 < total → current ≤ 3 → getPageNumbers total current = [1, 2, 3, 4, 5]) ∧
    (7 < total → total - 2 ≤ current →
      getPageNumbers total current
        = [total - 4, total - 3, total - 2, total - 1, total]) ∧
    (7 < total → 3 < current → current < total - 2 →
      getPageNumbers total current = [current - 1, current, current + 1]) ∧
    getPageNumbers 10 1 = [1, 2, 3, 4, 5] ∧
    getPageNumbers 10 9 = [6, 7, 8, 9, 10] ∧
    getPageNumbers 10 5 = [4, 5, 6] := by
  refine ⟨?_, ?_, ?_, ?_, by decide, by decide, by decide⟩
  · intro h
    unfold getPageNumbers
    rw [if_pos h]
  · intro h hc
    unfold getPageNumbers
    rw [if_neg (by omega), if_pos hc]
  · intro h hc
    unfold getPageNumbers
    rw [if_neg (by omega), if_neg (by omega), if_pos (by omega)]
  · intro h hc hc2
    unfold getPageNumbers
    rw [if_neg (by omega), if_neg (by omega), if_neg (by omega)]

/-- C2 witness: instantiation at total = 10, current = 5. -/
theorem c2_page_number_window_witness :
    1 ≤ 5 ∧ 5 ≤ 10 ∧
    (7 < 10 → 3 < 5 → 5 < 10 - 2 → getPageNumbers 10 5 = [5 - 1, 5, 5 + 1]) := by
  refine ⟨by decide, by decide, ?_⟩
  exact (c2_page_number_window 10 5 (by decide) (by decide)).2.2.2.1

/-- `applyFilters` on a state with type filter "all" and no search term
reduces to the plain date-range filter. -/
theorem applyFilters_all_type_no_search (txs : List Transaction)
    (s e : Int) (page : Int) :
    (TransactionsComponent.applyFilters
       { transactions := txs, filteredTransactions := [],
         searchTerm := "", filterType := "all",
         startDate := some s, endDate := some e,
         currentPage := page }).filteredTransactions
      = txs.filter (fun t =>
          decide (s ≤ t.date) && decide (t.date ≤ e + 86399999)) := rfl

/-- C3: the date-range filter (both `getTransactionsByDateRange` and the
date branch of `TransactionsComponent.applyFilters`) is inclusive of both
endpoints with the end date forced to 23:59:59.999: a transaction dated
exactly at `endDate` 23:59:59.999 (`e + 86399999` ms) is kept, and one
dated one millisecond later is dropped. -/
theorem c3_date_range_inclusive (txs : List Transaction) (t : Transaction)
    (s e : Int) (hmem : t ∈ txs) (hs : s ≤ t.date) :
    (t.date = e + 86399999 →
       t ∈ TransactionService.getTransactionsByDateRange txs s e ∧
       t ∈ (TransactionsComponent.applyFilters
              { transactions := txs, filteredTransactions := [],
                searchTerm := "", filterType := "all",
                startDate := some s, endDate := some e,
                currentPage := 1 }).filteredTransactions) ∧
    (t.date = e + 86399999 + 1 →
       t ∉ TransactionService.getTransactionsByDateRange txs s e ∧
       t ∉ (TransactionsComponent.applyFilters
              { transactions := txs, filteredTransactions := [],
                searchTerm := "", filterType := "all",
                startDate := some s, endDate := some e,
                currentPage := 1 }).filteredTransactions) := by
  rw [applyFilters_all_type_no_search]
  unfold TransactionService.getTransactionsByDateRange
  constructor
  · intro ht
    have hin : t ∈ txs.filter (fun t =>
        decide (s ≤ t.date) && decide (t.date ≤ e + 86399999)) :=
      List.mem_filter.mpr ⟨hmem, by simp [hs]; omega⟩
    exact ⟨hin, hin⟩
  · intro ht
    have hout : t ∉ txs.filter (fun t =>
        decide (s ≤ t.date) && decide (t.date ≤ e + 86399999)) := by
      intro hin
      have := (List.mem_filter.mp hin).2
      simp at this
      omega
    exact ⟨hout, hout⟩

/-- C3 witness: a transaction dated exactly at the forced end-of-day
instant is kept, one dated 1 ms later would be dropped. -/
theorem c3_date_range_inclusive_witness :
    let tx : Transaction :=
      { id := "t1", productId := "p1", productName := "Cable",
        productSku := "C-1", type := "purchase", quantity := 1,
        unitPrice := 1, totalAmount := 1, userId := "u1",
        userName := "alice", date := 86399999, notes := none }
    tx ∈ [tx] ∧ (0 : Int) ≤ tx.date ∧
    (tx.date = 0 + 86399999 →
       tx ∈ TransactionService.getTransactionsByDateRange [tx] 0 0 ∧
       tx ∈ (TransactionsComponent.applyFilters
              { transactions := [tx], filteredTransactions := [],
                searchTerm := "", filterType := "all",
                startDate := some 0, endDate := some 0,
                currentPage := 1 }).filteredTransactions) := by
  intro tx
  refine ⟨List.mem_singleton.mpr rfl, by decide, ?_⟩
  exact (c3_date_range_inclusive [tx] tx 0 0
    (List.mem_singleton.mpr rfl) (by decide)).1

/-- C4: applying the filters always resets the current page index to 1,
on both the transactions and the products list. -/
theorem c4_apply_filters_resets_page
    (st : TransactionsComponent.State) (stp : ProductsComponent.State) :
    (TransactionsComponent.applyFilters st).currentPage = 1 ∧
    (ProductsComponent.applyFilters stp).currentPage = 1 :=
  ⟨rfl, rfl⟩

/-- Modelled from the spec's words, for comparison only: the claimed
free-text search predicate of the transactions view, matching the
lower-cased term against productName, productSku, userName or type. -/
def claimedTransactionSearchPred (term : String) (t : Transaction) : Bool :=
  includesStr (toLowerStr t.productName) term ||
  includesStr (toLowerStr t.productSku) term ||
  includesStr (toLowerStr t.userName) term ||
  includesStr (toLowerStr t.type) term

/-- An all-blank product, used to instantiate product binders in
witnesses. -/
def blankProduct : Product :=
  { id := "", sku := "", name := "", category := "", supplier := "",
    unitPrice := 0, stockLevel := 0, minStockThreshold := 0,
    createdAt := "", updatedAt := "" }

/-- Concrete transaction for the C5 counterexample: the term "sale"
matches only its `type` field. -/
def c5SaleTransaction : Transaction :=
  { id := "t1", productId := "p1", productName := "Widget",
    productSku := "W-1", type := "sale", quantity := 1, unitPrice := 1,
    totalAmount := 1, userId := "u1", userName := "bob", date := 0,
    notes := none }

/-- C5, counterexample: with search term "sale" the transactions view's
`applyFilters` drops a transaction whose only matching field is `type`,
although the claimed field set (productName, productSku, userName, type)
matches it — the transactions view does not search the `type` field. -/
theorem c5_counterexample_type_field_not_searched :
    (TransactionsComponent.applyFilters
       { transactions := [c5SaleTransaction], filteredTransactions := [],
         searchTerm := "sale", filterType := "all", startDate := none,
         endDate := none, currentPage := 1 }).filteredTransactions = [] ∧
    claimedTransactionSearchPred (toLowerStr "sale") c5SaleTransaction = true := by
  exact ⟨rfl, rfl⟩

/-- C5 (amended): the transactions view's free-text search keeps exactly
the transactions whose productName, productSku or userName contains the
lower-cased term (`type` is not searched there); the dashboard's
recent-transaction search additionally matches `type`; the products
search matches name, sku, category or supplier. -/
theorem c5_amended_search_field_sets
    (txs : List Transaction) (term : String) (t : Transaction)
    (products : List Product) (p : Product) (page : Int)
    (h1 : toLowerStr term ≠ "") (h2 : toLowerStr (trimStr term) ≠ "") :
    (t ∈ (TransactionsComponent.applyFilters
            { transactions := txs, filteredTransactions := [],
              searchTerm := term, filterType := "all", startDate := none,
              endDate := none, currentPage := page }).filteredTransactions
       ↔ t ∈ txs ∧
         (includesStr (toLowerStr t.productName) (toLowerStr term) ||
          includesStr (toLowerStr t.productSku) (toLowerStr term) ||
          includesStr (toLowerStr t.userName) (toLowerStr term)) = true) ∧
    (t ∈ WelcomeComponent.filteredTransactions txs term
       ↔ t ∈ txs ∧
         (includesStr (toLowerStr t.productName) (toLowerStr (trimStr term)) ||
          includesStr (toLowerStr t.productSku) (toLowerStr (trimStr term)) ||
          includesStr (toLowerStr t.userName) (toLowerStr (trimStr term)) ||
          includesStr (toLowerStr t.type) (toLowerStr (trimStr term))) = true) ∧
    (p ∈ ProductService.searchProducts products term
       ↔ p ∈ products ∧
         (includesStr (toLowerStr p.name) (toLowerStr term) ||
          includesStr (toLowerStr p.sku) (toLowerStr term) ||
          includesStr (toLowerStr p.category) (toLowerStr term) ||
          includesStr (toLowerStr p.supplier) (toLowerStr term)) = true) := by
  refine ⟨?_, ?_, ?_⟩
  · have hred : (TransactionsComponent.applyFilters
        { transactions := txs, filteredTransactions := [],
          searchTerm := term, filterType := "all", startDate := none,
          endDate := none, currentPage := page }).filteredTransactions
        = if toLowerStr term ≠ "" then
            txs.filter (fun t =>
              includesStr (toLowerStr t.productName) (toLowerStr term) ||
              includesStr (toLowerStr t.productSku) (toLowerStr term) ||
              includesStr (toLowerStr t.userName) (toLowerStr term))
          else txs := rfl
    rw [hred, if_pos h1]
    exact List.mem_filter
  · unfold WelcomeComponent.filteredTransactions
    rw [if_neg h2]
    exact List.mem_filter
  · unfold ProductService.searchProducts
    exact List.mem_filter

/-- C5 amended witness: term "bob" keeps the sample transaction via its
userName field. -/
theorem c5_amended_search_field_sets_witness :
    toLowerStr "bob" ≠ "" ∧ toLowerStr (trimStr "bob") ≠ "" ∧
    (c5SaleTransaction ∈ (TransactionsComponent.applyFilters
        { transactions := [c5SaleTransaction], filteredTransactions := [],
          searchTerm := "bob", filterType := "all", startDate := none,
          endDate := none, currentPage := 1 }).filteredTransactions
      ↔ c5SaleTransaction ∈ [c5SaleTransaction] ∧
        (includesStr (toLowerStr c5SaleTransaction.productName) (toLowerStr "bob") ||
         includesStr (toLowerStr c5SaleTransaction.productSku) (toLowerStr "bob") ||
         includesStr (toLowerStr c5SaleTransaction.userName) (toLowerStr "bob")) = true) := by
  refine ⟨by decide, by decide, ?_⟩
  exact (c5_amended_search_field_sets [c5SaleTransaction] "bob"
    c5SaleTransaction [] blankProduct 1 (by decide) (by decide)).1

/-- `totalPagesCalc` never returns 0. -/
theorem one_le_totalPagesCalc (len ps : Nat) : 1 ≤ totalPagesCalc len ps := by
  unfold totalPagesCalc
  dsimp only
  split <;> omega

/-- `goToPage` leaves every field except `currentPage` unchanged, so
`totalPages` is unchanged (transactions view). -/
theorem totalPages_goToPage (st : TransactionsComponent.State) (page : Int) :
    TransactionsComponent.totalPages (TransactionsComponent.goToPage st page)
      = TransactionsComponent.totalPages st := by
  unfold TransactionsComponent.goToPage
  split <;> rfl

/-- `goToPage` leaves every field except `currentPage` unchanged, so
`totalPages` is unchanged (products view). -/
theorem totalPages_goToPage_products (st : ProductsComponent.State) (page : Int) :
    ProductsComponent.totalPages (ProductsComponent.goToPage st page)
      = ProductsComponent.totalPages st := by
  unfold ProductsComponent.goToPage
  split <;> rfl

/-- C10: `totalPages` is at least 1 on every snapshot (an empty filtered
set yields 1), `goToPage` changes `currentPage` only when the target is
within `[1, totalPages]`, and `goToPage` preserves
`currentPage ∈ [1, totalPages]`; stated for both list views. -/
theorem c10_pagination_invariants
    (len : Nat) (st : TransactionsComponent.State)
    (stp : ProductsComponent.State) (page : Int) :
    (1 ≤ totalPagesCalc len 10 ∧ 1 ≤ totalPagesCalc len 12 ∧
     totalPagesCalc 0 10 = 1 ∧ totalPagesCalc 0 12 = 1) ∧
    ((¬ (1 ≤ page ∧ page ≤ (TransactionsComponent.totalPages st : Int)) →
        TransactionsComponent.goToPage st page = st) ∧
     (1 ≤ page → page ≤ (TransactionsComponent.totalPages st : Int) →
        (TransactionsComponent.goToPage st page).currentPage = page) ∧
     (1 ≤ st.currentPage →
      st.currentPage ≤ (TransactionsComponent.totalPages st : Int) →
        1 ≤ (TransactionsComponent.goToPage st page).currentPage ∧
        (TransactionsComponent.goToPage st page).currentPage
          ≤ (TransactionsComponent.totalPages
               (TransactionsComponent.goToPage st page) : Int))) ∧
    ((¬ (1 ≤ page ∧ page ≤ (ProductsComponent.totalPages stp : Int)) →
        ProductsComponent.goToPage stp page = stp) ∧
     (1 ≤ page → page ≤ (ProductsComponent.totalPages stp : Int) →
        (ProductsComponent.goToPage stp page).currentPage = page) ∧
     (1 ≤ stp.currentPage →
      stp.currentPage ≤ (ProductsComponent.totalPages stp : Int) →
        1 ≤ (ProductsComponent.goToPage stp page).currentPage ∧
        (ProductsComponent.goToPage stp page).currentPage
          ≤ (ProductsComponent.totalPages
               (ProductsComponent.goToPage stp page) : Int))) := by
  refine ⟨⟨one_le_totalPagesCalc _ _, one_le_totalPagesCalc _ _, rfl, rfl⟩,
    ⟨?_, ?_, ?_⟩, ⟨?_, ?_, ?_⟩⟩
  · intro h
    unfold TransactionsComponent.goToPage
    rw [if_neg h]
  · intro ha hb
    unfold TransactionsComponent.goToPage
    rw [if_pos ⟨ha, hb⟩]
  · intro ha hb
    rw [totalPages_goToPage]
    unfold TransactionsComponent.goToPage
    split
    · next h => exact ⟨h.1, h.2⟩
    · exact ⟨ha, hb⟩
  · intro h
    unfold ProductsComponent.goToPage
    rw [if_neg h]
  · intro ha hb
    unfold ProductsComponent.goToPage
    rw [if_pos ⟨ha, hb⟩]
  · intro ha hb
    rw [totalPages_goToPage_products]
    unfold ProductsComponent.goToPage
    split
    · next h => exact ⟨h.1, h.2⟩
    · exact ⟨ha, hb⟩

/-- C10 witness: on an empty transactions snapshot, `totalPages` is 1 and
`goToPage 2` leaves `currentPage` at 1, while `goToPage 1` keeps it in
range. -/
theorem c10_pagination_invariants_witness :
    (1 ≤ totalPagesCalc 0 10 ∧ 1 ≤ totalPagesCalc 0 12 ∧
     totalPagesCalc 0 10 = 1 ∧ totalPagesCalc 0 12 = 1) ∧
    (¬ (1 ≤ (2 : Int) ∧ (2 : Int) ≤ (TransactionsComponent.totalPages
          { transactions := [], filteredTransactions := [], searchTerm := "",
            filterType := "all", startDate := none, endDate := none,
            currentPage := 1 } : Int)) →
       TransactionsComponent.goToPage
          { transactions := [], filteredTransactions := [], searchTerm := "",
            filterType := "all", startDate := none, endDate := none,
            currentPage := 1 } 2
         = { transactions := [], filteredTransactions := [], searchTerm := "",
             filterType := "all", startDate := none, endDate := none,
             currentPage := 1 }) ∧
    ¬ (1 ≤ (2 : Int) ∧ (2 : Int) ≤ (TransactionsComponent.totalPages
          { transactions := [], filteredTransactions := [], searchTerm := "",
            filterType := "all", startDate := none, endDate := none,
            currentPage := 1 } : Int)) := by
  refine ⟨(c10_pagination_invariants 0
      { transactions := [], filteredTransactions := [], searchTerm := "",
        filterType := "all", startDate := none, endDate := none,
        currentPage := 1 }
      { products := [], filteredProducts := [], searchTerm := "",
        currentPage := 1 } 2).1,
    (c10_pagination_invariants 0
      { transactions := [], filteredTransactions := [], searchTerm := "",
        filterType := "all", startDate := none, endDate := none,
        currentPage := 1 }
      { products := [], filteredProducts := [], searchTerm := "",
        currentPage := 1 } 2).2.1.1, ?_⟩
  decide

namespace AuthService

/-- The `AuthService` signals plus the two localStorage keys it manages
(`users` and `currentUser`). -/
structure State where
  usersStore : List User
  storedCurrentUser : Option StoredUser
  currentUser : Option User
  isAuthenticated : Bool
deriving Repr, DecidableEq

/-- `AuthService.setUserFromApiResponse`: build a user record with a
time-derived id (`nowId` models `Date.now().toString()`), email
defaulting to the username when the supplied email is empty (falsy),
blank password; persist the redacted record under `currentUser` and
establish the session. -/
def setUserFromApiResponse (st : State) (nowId username role email : String) :
    State :=
  let user : User :=
    { id := nowId,
      email := if email = "" then username else email,
      password := "",
      role := role,
      name := username }
  { st with
      storedCurrentUser := some (redactUser user),
      currentUser := some user,
      isAuthenticated := true }

/-- `AuthService.logout` (navigation out of scope): remove the durable
`currentUser` key and clear the in-memory identity. -/
def logout (st : State) : State :=
  { st with storedCurrentUser := none, currentUser := none,
            isAuthenticated := false }

/-- `AuthService.deleteUser`: filter the user with the given id out of
the `users` list; when someone was actually removed, persist the filtered
list and — if the removed user is the current session user — force a
logout. Returns the new state and the method's boolean result. -/
def deleteUser (st : State) (userId : String) : State × Bool :=
  let users := st.usersStore
  let filtered := users.filter (fun u => !(u.id == userId))
  if filtered.length < users.length then
    let st1 : State := { st with usersStore := filtered }
    let st2 :=
      if (match st1.currentUser with
          | some cu => cu.id == userId
          | none => false) = true then logout st1
      else st1
    (st2, true)
  else (st, false)

end AuthService

/-- `LoginResponse` from `api.service.ts`, reduced to the fields the
success handler of `LoginComponent.onSubmit` reads. -/
structure LoginResponse where
  username : String
  role : String
  token : Option String
deriving Repr, DecidableEq

namespace LoginComponent

/-- The component signals of `LoginComponent` together with the session
state it can touch: the `authToken` localStorage key and the
`AuthService` state. `nowId` models `Date.now().toString()`. -/
structure State where
  email : String
  password : String
  selectedRole : String
  error : String
  isLoading : Bool
  authToken : Option String
  auth : AuthService.State
  nowId : String
deriving Repr, DecidableEq

/-- The `next` callback of `LoginComponent.onSubmit` applied to a parsed
response: with truthy username and role, a role different from the
selected tab sets the usage-error message and returns (session untouched);
otherwise the token is stored when present, the session is established via
`setUserFromApiResponse`, and loading is cleared. Navigation is out of
scope. -/
def onLoginSuccess (st : State) (response : LoginResponse) : State :=
  if response.username ≠ "" ∧ response.role ≠ "" then
    if response.role ≠ st.selectedRole then
      { st with
          error := "Please log in using the " ++ response.role ++ " tab.",
          isLoading := false }
    else
      let st1 :=
        match response.token with
        | some t => if t ≠ "" then { st with authToken := some t } else st
        | none => st
      let st2 := { st1 with
        auth := AuthService.setUserFromApiResponse st1.auth st1.nowId
                  response.username response.role (trimStr st1.email) }
      { st2 with isLoading := false }
  else
    { st with error := "Invalid response from server", isLoading := false }

end LoginComponent

/-- The create/edit form buffer of `UserManagementComponent` (the fields
`createUser` reads; `fullName` and `phone` are never read there). -/
structure UserEditForm where
  name : String
  email : String
  password : String
  role : String
deriving Repr, DecidableEq

/-- Outcome of the pre-flight-validated user create: either an early
`return` with an error message — no remote call issued — or the remote
`createUser(username, email, password, role)` call. -/
inductive CreateUserAction where
  | reject (errorMsg : String)
  | callApi (username email password role : String)
deriving Repr, DecidableEq

/-- `UserManagementComponent.createUser` up to the remote call: required
username/email, password generation
`baseUsername.slice(0, 4).toLowerCase() + '123'` from the
whitespace-stripped trimmed name when the supplied password trims to
empty, the minimum-6-characters check, and the local duplicate-email
check against the current users snapshot. -/
def UserManagementComponent.createUser (users : List User)
    (form : UserEditForm) : CreateUserAction :=
  if trimStr form.name = "" ∨ trimStr form.email = "" then
    .reject "Username and email are required"
  else
    let baseUsername := stripWhitespace (trimStr form.name)
    let generatedPassword := toLowerStr (sliceStr baseUsername 4) ++ "123"
    let passwordToUse :=
      if trimStr form.password = "" then generatedPassword
      else trimStr form.password
    if passwordToUse.length < 6 then
      .reject "Password must be at least 6 characters"
    else if (users.find? (fun u => u.email == form.email)).isSome then
      .reject "Email already exists"
    else
      .callApi (trimStr form.name) (trimStr form.email) passwordToUse form.role

/-- The create-transaction modal form of `TransactionsComponent`. -/
structure CreateTxForm where
  productId : String
  type : String
  quantity : Int
  notes : String
deriving Repr, DecidableEq

/-- Outcome of the pre-flight-validated transaction create: either an
early `return` with an error message — no remote call issued — or the
remote `createTransaction` call with its payload. -/
inductive TxCreateAction where
  | reject (errorMsg : String)
  | callApi (productId : String) (type : String) (quantity unitPrice : Int)
      (notes : String)
deriving Repr, DecidableEq

/-- `TransactionsComponent.createTransaction` up to the remote call:
admin gate, product/quantity validation, product lookup in the local
snapshot, and the sale-specific `quantity > product.stockLevel`
insufficient-stock rejection. -/
def TransactionsComponent.createTransaction (isAdmin : Bool)
    (products : List Product) (form : CreateTxForm) : TxCreateAction :=
  if !isAdmin then
    .reject "Only administrators can create transactions."
  else if form.productId = "" ∨ form.quantity ≤ 0 then
    .reject "Please select a product and enter a valid quantity"
  else
    match products.find? (fun p => p.id == form.productId) with
    | none => .reject "Product not found"
    | some product =>
        if form.type = "sale" ∧ form.quantity > product.stockLevel then
          .reject "Insufficient stock"
        else
          .callApi product.id form.type form.quantity product.unitPrice
            form.notes

/-- Outcome of the pre-flight-validated stock adjustment: an early
`return` with an error message, a silent `return` (no product selected
or no session user), or the remote `updateStockLevel` call. -/
inductive StockUpdateAction where
  | reject (errorMsg : String)
  | silentReturn
  | callApi (productId : String) (quantity : Int) (type notes : String)
deriving Repr, DecidableEq

/-- `ProductsComponent.updateStock` up to the remote call: admin gate,
positive-quantity check, and the stock-out-specific
`quantity > product.stockLevel` insufficient-stock rejection. -/
def ProductsComponent.updateStock (isAdmin : Bool)
    (stockModalProduct : Option Product) (stockQuantity : Int)
    (stockType : String) (currentUser : Option User) : StockUpdateAction :=
  if !isAdmin then
    .reject "Only administrators can adjust stock."
  else
    match stockModalProduct with
    | none => .silentReturn
    | some product =>
        if stockQuantity ≤ 0 then
          .reject "Quantity must be greater than 0"
        else if stockType = "out" ∧ stockQuantity > product.stockLevel then
          .reject "Insufficient stock"
        else
          match currentUser with
          | none => .silentReturn
          | some _ =>
              .callApi product.id stockQuantity stockType
                (if stockType = "in" then "Stock In - Manual adjustment"
                 else "Stock Out - Manual adjustment")

/-- Modelled from the spec's words, for comparison only: the claimed
generated password — the first 4 characters of the username (the value
sent as username is the trimmed form name), lower-cased, followed by the
literal suffix "123". -/
def claimedGeneratedPassword (username : String) : String :=
  toLowerStr (sliceStr username 4) ++ "123"

/-- C6, counterexample: for username "J S" with no supplied password, the
claimed rule generates "j s123" (6 characters, so the claim predicts the
save passes the length check), but the code first strips whitespace from
the username, generates "js123" (5 characters) and rejects the save. -/
theorem c6_counterexample_whitespace_username :
    UserManagementComponent.createUser []
        { name := "J S", email := "a@b.c", password := "", role := "user" }
      = CreateUserAction.reject "Password must be at least 6 characters" ∧
    claimedGeneratedPassword (trimStr "J S") = "j s123" ∧
    6 ≤ ("j s123" : String).length := by
  exact ⟨rfl, rfl, by decide⟩

/-- C6 (amended): when the supplied password trims to empty, the password
is generated as the first 4 characters of the whitespace-stripped
username, lower-cased, plus "123"; the save is rejected before any
remote call when that password is shorter than 6 characters, and
otherwise (absent a duplicate email) proceeds to the remote call with the
generated password; username "johnsmith" with no password yields
"john123", which passes the check. -/
theorem c6_amended_generated_password (users : List User)
    (form : UserEditForm) (gen : String)
    (hname : trimStr form.name ≠ "") (hemail : trimStr form.email ≠ "")
    (hnopw : trimStr form.password = "")
    (hnodup : users.find? (fun u => u.email == form.email) = none)
    (hgen : gen = toLowerStr (sliceStr (stripWhitespace (trimStr form.name)) 4)
              ++ "123") :
    (gen.length < 6 →
       UserManagementComponent.createUser users form
         = CreateUserAction.reject "Password must be at least 6 characters") ∧
    (6 ≤ gen.length →
       UserManagementComponent.createUser users form
         = CreateUserAction.callApi (trimStr form.name) (trimStr form.email)
             gen form.role) ∧
    UserManagementComponent.createUser []
        { name := "johnsmith", email := "john@x.com", password := "",
          role := "user" }
      = CreateUserAction.callApi "johnsmith" "john@x.com" "john123" "user" := by
  have hmain : UserManagementComponent.createUser users form
      = if gen.length < 6 then
          CreateUserAction.reject "Password must be at least 6 characters"
        else if (users.find? (fun u => u.email == form.email)).isSome then
          CreateUserAction.reject "Email already exists"
        else
          CreateUserAction.callApi (trimStr form.name) (trimStr form.email)
            gen form.role := by
    unfold UserManagementComponent.createUser
    rw [if_neg (by simp [hname, hemail]), hgen]
    simp only [hnopw, if_pos]
  refine ⟨?_, ?_, rfl⟩
  · intro h
    rw [hmain, if_pos h]
  · intro h
    rw [hmain, if_neg (by omega), hnodup]
    simp

/-- C6 witness: the "johnsmith" instantiation of the amended rule. -/
theorem c6_amended_generated_password_witness :
    trimStr "johnsmith" ≠ "" ∧ trimStr "john@x.com" ≠ "" ∧
    trimStr "" = "" ∧
    ([] : List User).find? (fun u => u.email == "john@x.com") = none ∧
    "john123" = toLowerStr (sliceStr (stripWhitespace (trimStr "johnsmith")) 4)
              ++ "123" ∧
    (6 ≤ ("john123" : String).length →
       UserManagementComponent.createUser []
           { name := "johnsmith", email := "john@x.com", password := "",
             role := "user" }
         = CreateUserAction.callApi (trimStr "johnsmith")
             (trimStr "john@x.com") "john123" "user") := by
  refine ⟨by decide, by decide, rfl, rfl, rfl, ?_⟩
  exact (c6_amended_generated_password []
    { name := "johnsmith", email := "john@x.com", password := "",
      role := "user" } "john123" (by decide) (by decide) rfl rfl rfl).2.1

/-- C7: on a successful credential check whose reported role differs from
the selected tab, the error is the usage message naming the reported
role's tab, and the session is not established: the stored token, the
durable `currentUser` entry, the in-memory `currentUser` and
`isAuthenticated` are all unchanged (so `isAuthenticated` stays false
when it was false). -/
theorem c7_role_mismatch_no_session (st : LoginComponent.State)
    (response : LoginResponse)
    (hu : response.username ≠ "") (hr : response.role ≠ "")
    (hmismatch : response.role ≠ st.selectedRole) :
    (LoginComponent.onLoginSuccess st response).error
       = "Please log in using the " ++ response.role ++ " tab." ∧
    (LoginComponent.onLoginSuccess st response).authToken = st.authToken ∧
    (LoginComponent.onLoginSuccess st response).auth.storedCurrentUser
       = st.auth.storedCurrentUser ∧
    (LoginComponent.onLoginSuccess st response).auth.currentUser
       = st.auth.currentUser ∧
    (LoginComponent.onLoginSuccess st response).auth.isAuthenticated
       = st.auth.isAuthenticated := by
  unfold LoginComponent.onLoginSuccess
  rw [if_pos ⟨hu, hr⟩, if_pos hmismatch]
  exact ⟨rfl, rfl, rfl, rfl, rfl⟩

/-- C7 witness: valid credentials reported as role "user" while the
"admin" tab is selected leave the session unauthenticated. -/
theorem c7_role_mismatch_no_session_witness :
    ("bob" : String) ≠ "" ∧ ("user" : String) ≠ "" ∧
    ("user" : String) ≠ "admin" ∧
    (LoginComponent.onLoginSuccess
        { email := "bob@x.com", password := "pw", selectedRole := "admin",
          error := "", isLoading := true, authToken := none,
          auth := { usersStore := [], storedCurrentUser := none,
                    currentUser := none, isAuthenticated := false },
          nowId := "1" }
        { username := "bob", role := "user", token := some "tok" }).error
      = "Please log in using the " ++ "user" ++ " tab." ∧
    (LoginComponent.onLoginSuccess
        { email := "bob@x.com", password := "pw", selectedRole := "admin",
          error := "", isLoading := true, authToken := none,
          auth := { usersStore := [], storedCurrentUser := none,
                    currentUser := none, isAuthenticated := false },
          nowId := "1" }
        { username := "bob", role := "user", token := some "tok" }).auth.isAuthenticated
      = ({ usersStore := [], storedCurrentUser := none, currentUser := none,
           isAuthenticated := false } : AuthService.State).isAuthenticated := by
  refine ⟨by decide, by decide, by decide, ?_, ?_⟩
  · exact (c7_role_mismatch_no_session _ _ (by decide) (by decide) (by decide)).1
  · exact (c7_role_mismatch_no_session
      { email := "bob@x.com", password := "pw", selectedRole := "admin",
        error := "", isLoading := true, authToken := none,
        auth := { usersStore := [], storedCurrentUser := none,
                  currentUser := none, isAuthenticated := false },
        nowId := "1" }
      { username := "bob", role := "user", token := some "tok" }
      (by decide) (by decide) (by decide)).2.2.2.2

/-- C8: a sale whose quantity exceeds the product's stockLevel in the
local snapshot is rejected with "Insufficient stock" before any remote
call, both for manual creation in the transactions view and for a
stock-out adjustment in the products view. -/
theorem c8_insufficient_stock_rejected (products : List Product)
    (form : CreateTxForm) (product : Product) (currentUser : Option User)
    (hfind : products.find? (fun p => p.id == form.productId) = some product)
    (hpid : form.productId ≠ "")
    (hlevel : 0 ≤ product.stockLevel)
    (hqty : form.quantity > product.stockLevel)
    (hsale : form.type = "sale") :
    TransactionsComponent.createTransaction true products form
      = TxCreateAction.reject "Insufficient stock" ∧
    ProductsComponent.updateStock true (some product) form.quantity "out"
        currentUser
      = StockUpdateAction.reject "Insufficient stock" := by
  constructor
  · unfold TransactionsComponent.createTransaction
    rw [if_neg (by simp), if_neg (by push_neg; exact ⟨hpid, by omega⟩), hfind]
    dsimp only
    rw [if_pos ⟨hsale, hqty⟩]
  · unfold ProductsComponent.updateStock
    rw [if_neg (by simp)]
    dsimp only
    rw [if_neg (by omega), if_pos ⟨rfl, hqty⟩]

/-- C8 witness: selling 5 of a product with stockLevel 3 is rejected on
both paths. -/
theorem c8_insufficient_stock_rejected_witness :
    let p : Product :=
      { id := "p1", sku := "S1", name := "Bolt", category := "Tools",
        supplier := "Acme", unitPrice := 2, stockLevel := 3,
        minStockThreshold := 1, createdAt := "", updatedAt := "" }
    let form : CreateTxForm :=
      { productId := "p1", type := "sale", quantity := 5, notes := "" }
    [p].find? (fun q => q.id == form.productId) = some p ∧
    form.productId ≠ "" ∧ (0 : Int) ≤ p.stockLevel ∧
    form.quantity > p.stockLevel ∧ form.type = "sale" ∧
    TransactionsComponent.createTransaction true [p] form
      = TxCreateAction.reject "Insufficient stock" ∧
    ProductsComponent.updateStock true (some p) form.quantity "out" none
      = StockUpdateAction.reject "Insufficient stock" := by
  intro p form
  have h := c8_insufficient_stock_rejected [p] form p none (by decide)
    (by decide) (by decide) (by decide) (by decide)
  exact ⟨by decide, by decide, by decide, by decide, by decide, h.1, h.2⟩

/-- C9: deleting the currently-authenticated user clears the session:
the durable `currentUser` entry is removed, `currentUser` becomes none,
`isAuthenticated` becomes false, and the method reports success. -/
theorem c9_delete_current_user_forces_logout (st : AuthService.State)
    (userId : String) (cu : User)
    (hcu : st.currentUser = some cu) (hid : cu.id = userId)
    (hmem : ∃ u ∈ st.usersStore, u.id = userId) :
    (AuthService.deleteUser st userId).1.storedCurrentUser = none ∧
    (AuthService.deleteUser st userId).1.currentUser = none ∧
    (AuthService.deleteUser st userId).1.isAuthenticated = false ∧
    (AuthService.deleteUser st userId).2 = true := by
  have hlt : (st.usersStore.filter (fun u => !(u.id == userId))).length
      < st.usersStore.length := by
    rw [List.length_filter_lt_length_iff_exists]
    obtain ⟨u, hu, hid2⟩ := hmem
    exact ⟨u, hu, by simp [hid2]⟩
  have hmatch : (match st.currentUser with
      | some cu => cu.id == userId
      | none => false) = true := by
    rw [hcu]
    simp [hid]
  unfold AuthService.deleteUser
  rw [if_pos hlt]
  dsimp only
  rw [if_pos hmatch]
  exact ⟨rfl, rfl, rfl, rfl⟩

/-- C9 witness: deleting the one stored user while they are the current
session user logs them out. -/
theorem c9_delete_current_user_forces_logout_witness :
    let u : User :=
      { id := "7", email := "a@b.c", password := "pw", role := "admin",
        name := "Al" }
    let st : AuthService.State :=
      { usersStore := [u], storedCurrentUser := some (redactUser u),
        currentUser := some u, isAuthenticated := true }
    st.currentUser = some u ∧ u.id = "7" ∧ (∃ w ∈ st.usersStore, w.id = "7") ∧
    (AuthService.deleteUser st "7").1.isAuthenticated = false ∧
    (AuthService.deleteUser st "7").1.storedCurrentUser = none := by
  intro u st
  have h := c9_delete_current_user_forces_logout st "7" u rfl rfl
    ⟨u, List.mem_singleton.mpr rfl, rfl⟩
  exact ⟨rfl, rfl, ⟨u, List.mem_singleton.mpr rfl, rfl⟩, h.2.2.1, h.1⟩

end Infosys
